import Mathlib

/-!
Shallow embedding of the client-side editor controller in
`mysite/editor/static/editor/js/workspace.js`: the custom list-marker
configuration subsystem (ordered-digit and bullet sequence editors), the
debounced preview synchronisation protocol with serial-based staleness
detection, and the PDF export controller.

Modelling conventions:
- The result of JavaScript `Number(value)` is an `Option ℚ`: `some q` for a
  finite numeric result and `none` for `NaN` or an infinity, which is exactly
  what `Number.isFinite` rejects inside `parseNumberOr`.
- JavaScript strings are Lean `String`s, `.trim()` is `jsTrim` (drop
  whitespace from both ends of the character list), and the truthiness test
  on a string is comparison with the empty string.
- `Math.round` rounds half away from zero upwards, i.e. `⌊x + 1/2⌋`.
- Arrays indexed out of range yield `none` (JavaScript `undefined`), so the
  `??` fallback chains become `Option.getD` chains.
- The scalar style fields of the theme (colors, fonts, spacing, shadow) and
  the ordered marker decoration strings are verbatim pass-throughs from the
  controls and are not involved in any claim; the `Theme` record models the
  fields the claims are about.
-/

namespace Workspace

/-- Load-time configuration distilled from the default theme JSON
(`defaultTheme` in the source): `orderedDigits` is `defaultOrderedDigits`
after the `Array.isArray` fallback to `["0", "1", "2"]`, and
`customOrderedBaseRaw` is the numeric parse of
`defaultTheme.customOrderedBase`. -/
structure Defaults where
  orderedDigits : List String
  customOrderedBaseRaw : Option ℚ
deriving Repr, DecidableEq

/-- JS `String.prototype.trim()`: drop whitespace characters from both ends
of the string. -/
def jsTrim (s : String) : String :=
  ((s.data.dropWhile Char.isWhitespace).reverse.dropWhile Char.isWhitespace).reverse.asString

/-- JS `parseNumberOr(value, fallback)`: `Number(value)` when finite,
otherwise the fallback. -/
def parseNumberOr (value : Option ℚ) (fallback : ℚ) : ℚ :=
  match value with
  | some v => v
  | none => fallback

/-- JS `Math.round`: half-up rounding, `⌊q + 1/2⌋`, computed on the
numerator and denominator so the kernel can evaluate it (`jsRound_eq_floor`
proves the agreement with the floor). -/
def jsRound (q : ℚ) : ℤ :=
  (2 * q.num + (q.den : ℤ)) / (2 * (q.den : ℤ))

/-- JS `clamp(value, min, max) = Math.min(max, Math.max(min, value))`. -/
def clamp (value lo hi : ℤ) : ℤ :=
  min hi (max lo value)

/-- JS `DEFAULT_ORDERED_BASE`: the default theme's base, defaulting to the
default digit table length (`length || 3`), rounded and clamped to `[2, 10]`. -/
def DEFAULT_ORDERED_BASE (d : Defaults) : ℤ :=
  clamp
    (jsRound (parseNumberOr d.customOrderedBaseRaw
      (if d.orderedDigits.length = 0 then 3 else (d.orderedDigits.length : ℚ))))
    2 10

/-- JS `sanitizeOrderedBase(value)`: parse, round, clamp to `[2, 10]`.
The source guards `Number.isNaN(parsed)` after rounding, but `parseNumberOr`
only ever returns a finite number, so the rounded result is never `NaN` and
that branch is dead; the fallback to `DEFAULT_ORDERED_BASE` happens inside
`parseNumberOr`. -/
def sanitizeOrderedBase (d : Defaults) (value : Option ℚ) : ℤ :=
  clamp (jsRound (parseNumberOr value (DEFAULT_ORDERED_BASE d : ℚ))) 2 10

/-- The sanitized base as a natural number (it is always in `[2, 10]`). -/
def sanitizeOrderedBaseNat (d : Defaults) (value : Option ℚ) : ℕ :=
  (sanitizeOrderedBase d value).toNat

/-- JS `ensureOrderedDigits(values, base)`: one digit per position
`i < base`; the trimmed candidate when non-empty, else the default digit at
`i` when truthy (present and non-empty), else the stringified index. -/
def ensureOrderedDigits (d : Defaults) (values : List String) (base : ℕ) : List String :=
  (List.range base).map (fun i =>
    let candidate := jsTrim ((values[i]?).getD "")
    if candidate ≠ "" then candidate
    else if (d.orderedDigits[i]?).getD "" ≠ "" then (d.orderedDigits[i]?).getD ""
    else toString i)

/-- JS `readOrderedSequence()`: the trimmed row input values, blanks kept. -/
def readOrderedSequence (rows : List String) : List String :=
  rows.map jsTrim

/-- JS `readBulletSequence()`: trimmed row input values with blanks dropped. -/
def readBulletSequence (rows : List String) : List String :=
  (rows.map jsTrim).filter (fun value => 0 < value.length)

/-- One rendered row of the ordered digit table: the index label span, the
input placeholder, and the input value. -/
structure OrderedRow where
  indexLabel : String
  placeholder : String
  value : String
deriving Repr, DecidableEq

/-- JS `renderOrderedSequence(baseValue, values)`: sanitizes the base and
rebuilds exactly `targetBase` rows.  Row `i` shows `String(i)` as its index
label, `defaultOrderedDigits[i] ?? String(i)` as its placeholder, and
`values[i] ?? defaultOrderedDigits[i] ?? ""` as its value. -/
def renderOrderedSequence (d : Defaults) (baseValue : Option ℚ) (values : List String) :
    List OrderedRow :=
  let targetBase := sanitizeOrderedBaseNat d baseValue
  (List.range targetBase).map (fun i =>
    { indexLabel := toString i
      placeholder := (d.orderedDigits[i]?).getD (toString i)
      value := (values[i]?).getD ((d.orderedDigits[i]?).getD "") })

/-- Current values of the form controls that feed the gathered theme fields
modelled here.  `orderedBaseValue` is the numeric parse of the base input's
string value. -/
structure ControlState where
  titleValue : String
  markdownValue : String
  toggleCustomBullets : Bool
  bulletRows : List String
  toggleCustomOrdered : Bool
  orderedBaseValue : Option ℚ
  orderedRows : List String
deriving Repr, DecidableEq

/-- The gathered theme restricted to the custom list-marker configuration
and the title (the fields the claims are about). -/
structure Theme where
  title : String
  useCustomBullets : Bool
  customBulletSequence : List String
  useCustomOrdered : Bool
  customOrderedDigits : List String
  customOrderedBase : ℕ
deriving Repr, DecidableEq

/-- JS `gatherTheme()` (list-marker related fields): reads the bullet rows,
sanitizes the base, repairs the ordered digit rows through
`ensureOrderedDigits`, forces `useCustomBullets` off when the read bullet
sequence is empty, and stores the repaired digit list length as the base. -/
def gatherTheme (d : Defaults) (c : ControlState) : Theme :=
  let bulletSequence := readBulletSequence c.bulletRows
  let orderedBase := sanitizeOrderedBaseNat d c.orderedBaseValue
  let orderedDigitsRaw := readOrderedSequence c.orderedRows
  let orderedDigits := ensureOrderedDigits d orderedDigitsRaw orderedBase
  { title := if jsTrim c.titleValue ≠ "" then jsTrim c.titleValue else "Untitled"
    useCustomBullets := c.toggleCustomBullets && decide (0 < bulletSequence.length)
    customBulletSequence := bulletSequence
    useCustomOrdered := c.toggleCustomOrdered
    customOrderedDigits := orderedDigits
    customOrderedBase := orderedDigits.length }

/-- Variant class of the preview status line (`updateStatus`): idle,
`is-loading`, or `is-error`. -/
inductive StatusVariant
  | idle
  | loading
  | error
deriving Repr, DecidableEq

/-- Outcome of a preview fetch as observed by `runPreview`'s continuation:
a 2xx response with parsed JSON body, a non-2xx response whose JSON body
may carry an `error` field (`none` models a missing or unparsable body),
or a network/parse failure with the thrown error's message. -/
inductive PreviewResponse
  | ok (html css : String)
  | httpErr (status : ℕ) (errField : Option String)
  | netErr (msg : String)
deriving Repr, DecidableEq

/-- Mutable state touched by the preview pipeline: the debounce timer slot,
the monotonic `activePreviewSerial`, `state.theme`, the preview surface
(`previewStyle` text and `previewOutput` HTML), the document title, the
status line, and the dirty flag. -/
structure PrevState where
  timerPending : Bool
  activeSerial : ℕ
  theme : Theme
  previewCss : String
  previewHtml : String
  docTitle : String
  statusText : String
  statusVariant : StatusVariant
  isPreviewDirty : Bool
deriving Repr, DecidableEq

/-- Events of the preview pipeline: a `schedulePreview` call, the debounce
timer firing `runPreview` (capturing the controls at that moment), and the
resumption of a request's continuation with its captured serial and the
response outcome. -/
inductive PrevEvent
  | schedule
  | timerFire (c : ControlState)
  | respond (serial : ℕ) (resp : PreviewResponse)

/-- JS generic preview failure message with the HTTP status code. -/
def previewFailMsg (status : ℕ) : String :=
  "미리보기 요청 실패 (" ++ toString status ++ ")"

/-- One step of the preview pipeline, following `schedulePreview` and
`runPreview` (with `urls.preview` configured).  A schedule replaces any
pending timer by a fresh one (single slot).  A timer fire gathers the theme,
shows the loading status and increments the serial.  A response resumption
compares its captured serial against the live one only on the success path;
the catch path updates the status unconditionally. -/
def step (d : Defaults) (st : PrevState) (ev : PrevEvent) : PrevState :=
  match ev with
  | .schedule => { st with isPreviewDirty := true, timerPending := true }
  | .timerFire c =>
      if st.timerPending then
        { st with
            timerPending := false
            theme := gatherTheme d c
            statusText := "렌더링 중..."
            statusVariant := .loading
            activeSerial := st.activeSerial + 1 }
      else st
  | .respond serial resp =>
      match resp with
      | .ok html css =>
          if serial = st.activeSerial then
            { st with
                previewCss := css
                previewHtml := html
                docTitle := st.theme.title ++ " · Markdown Styler"
                statusText := "실시간 반영 완료"
                statusVariant := .idle
                isPreviewDirty := false }
          else st
      | .httpErr status errField =>
          let raised :=
            match errField with
            | some e => if e ≠ "" then e else previewFailMsg status
            | none => previewFailMsg status
          { st with statusText := raised, statusVariant := .error }
      | .netErr m =>
          { st with
              statusText := if m ≠ "" then m else "미리보기 오류"
              statusVariant := .error }

/-- A `schedulePreview` call at a point in time with its `immediate` flag. -/
structure SchedEv where
  time : ℕ
  immediate : Bool
deriving Repr, DecidableEq

/-- The debounce delay picked by `schedulePreview`: 0ms when immediate,
otherwise 280ms. -/
def debounceDelay (immediate : Bool) : ℕ :=
  if immediate then 0 else 280

/-- Fire times of the single debounce timer slot over a time-ordered list of
schedule calls.  Before a schedule call is handled, a pending timer whose
expiry has already been reached fires; then `clearTimeout` discards whatever
is still pending and `setTimeout` arms the slot afresh.  A timer still
pending after the last call eventually fires. -/
def fireTimes : List SchedEv → Option ℕ → List ℕ
  | [], some t => [t]
  | [], none => []
  | e :: rest, pending =>
      (match pending with
       | some t => if t ≤ e.time then [t] else []
       | none => []) ++ fireTimes rest (some (e.time + debounceDelay e.immediate))

/-- JSON body of a preview request: `{ markdown, theme, title }`. -/
structure PreviewRequestBody where
  markdown : String
  theme : Theme
  title : String
deriving Repr, DecidableEq

/-- The request body built by `runPreview` firing at time `t`: it gathers
the theme and reads the markdown from the controls as they are at that
moment. -/
def previewRequestAt (d : Defaults) (controls : ℕ → ControlState) (t : ℕ) :
    PreviewRequestBody :=
  let th := gatherTheme d (controls t)
  { markdown := (controls t).markdownValue, theme := th, title := th.title }

/-- The network calls issued for a time-ordered list of schedule calls:
one per timer fire, each carrying the state snapshotted at its fire time. -/
def firedRequests (d : Defaults) (controls : ℕ → ControlState) (evs : List SchedEv) :
    List PreviewRequestBody :=
  (fireTimes evs none).map (previewRequestAt d controls)

/-- UI state touched by the export controller: whether the loading overlay
element is in the document and whether the download trigger is disabled. -/
structure UiState where
  overlayPresent : Bool
  btnDownloadDisabled : Bool
deriving Repr, DecidableEq

/-- Outcome of the export fetch: a 2xx response with a binary body, a
non-2xx response whose JSON body may carry an `error` field, or a network
failure with the thrown error's message. -/
inductive ExportOutcome
  | success
  | httpErr (status : ℕ) (errField : Option String)
  | netErr (msg : String)
deriving Repr, DecidableEq

/-- JS generic PDF failure message with the HTTP status code. -/
def pdfFailMsg (status : ℕ) : String :=
  "PDF 생성 실패 (" ++ toString status ++ ")"

/-- JS `downloadPdf()` (with `urls.pdf` configured), restricted to its UI
effects: `toggleLoading(true)` reuses an existing overlay or creates one
when the loading template is available (returning a truthy overlay
reference exactly then), the trigger is disabled, the request runs, a
failure raises whose message is alerted (`payload.error || generic` for
non-2xx, the error's message or a generic fallback for network failures),
and the `finally` block removes the overlay when the reference was truthy
and re-enables the trigger.  Returns the final UI state and the alerts the
user saw. -/
def downloadPdf (templateAvailable : Bool) (ui : UiState) (outcome : ExportOutcome) :
    UiState × List String :=
  let overlayTruthy := ui.overlayPresent || templateAvailable
  let alerts : List String :=
    match outcome with
    | .success => []
    | .httpErr status ef =>
        [match ef with
         | some e => if e ≠ "" then e else pdfFailMsg status
         | none => pdfFailMsg status]
    | .netErr m => [if m ≠ "" then m else "PDF를 생성할 수 없습니다."]
  let overlayFinal := if overlayTruthy then false else overlayTruthy
  ({ overlayPresent := overlayFinal, btnDownloadDisabled := false }, alerts)

/-- Example defaults: the built-in digit table `["0", "1", "2"]` and no
`customOrderedBase` entry in the default theme. -/
def dEx : Defaults :=
  { orderedDigits := ["0", "1", "2"], customOrderedBaseRaw := none }

/-- Example control state used by concrete witnesses. -/
def ctrlEx : ControlState :=
  { titleValue := "Doc"
    markdownValue := "# hi"
    toggleCustomBullets := true
    bulletRows := ["•", "◦"]
    toggleCustomOrdered := true
    orderedBaseValue := some 3
    orderedRows := ["a", "b", "c"] }

/-- Example start state for the preview pipeline. -/
def stEx0 : PrevState :=
  { timerPending := false
    activeSerial := 0
    theme := gatherTheme dEx ctrlEx
    previewCss := ""
    previewHtml := ""
    docTitle := "Doc"
    statusText := ""
    statusVariant := .idle
    isPreviewDirty := true }

/-- Example state with two requests dispatched (serials 1 and 2 in flight):
schedule, fire, schedule, fire from the start state. -/
def stEx : PrevState :=
  step dEx (step dEx (step dEx (step dEx stEx0 .schedule) (.timerFire ctrlEx)) .schedule)
    (.timerFire ctrlEx)

/-- Example state after the response for serial 2 has been applied. -/
def stEx2 : PrevState :=
  step dEx stEx (.respond 2 (.ok "H2" "C2"))

end Workspace

namespace Workspace

/-- Helper: an element of a range-map list at an in-range index. -/
theorem getD_map_range {α : Type} (f : ℕ → α) {n i : ℕ} (h : i < n) (a : α) :
    ((List.range n).map f).getD i a = f i := by
  have hlen : i < ((List.range n).map f).length := by simpa
  rw [List.getD_eq_getElem _ _ hlen, List.getElem_map, List.getElem_range]

/-- Helper: `jsRound` is the floor of the shifted argument. -/
theorem jsRound_eq_floor (q : ℚ) : jsRound q = ⌊q + 1 / 2⌋ := by
  have h0 : ((q.den : ℚ)) ≠ 0 := by
    have := q.den_pos
    positivity
  have key : (q.num : ℚ) = q * (q.den : ℚ) := (div_eq_iff h0).mp (Rat.num_div_den q)
  have hq : (q + 1 / 2 : ℚ) = ((2 * q.num + (q.den : ℤ) : ℤ) : ℚ) / ((2 * q.den : ℕ) : ℚ) := by
    rw [eq_div_iff (by push_cast; positivity)]
    push_cast
    linear_combination (-2 : ℚ) * key
  rw [hq, Rat.floor_intCast_div_natCast, jsRound]
  congr 1

/-- Helper: rounding an integer leaves it unchanged. -/
theorem jsRound_intCast (m : ℤ) : jsRound (m : ℚ) = m := by
  rw [jsRound_eq_floor, Int.floor_eq_iff]
  constructor
  · norm_num
  · norm_num

/-- Helper: the clamp of any integer to `[2, 10]` lies in `[2, 10]`. -/
theorem clamp_mem (v : ℤ) : 2 ≤ clamp v 2 10 ∧ clamp v 2 10 ≤ 10 := by
  unfold clamp
  omega

/-- Helper: clamping to `[2, 10]` fixes values already in range. -/
theorem clamp_eq_self {v : ℤ} (h2 : 2 ≤ v) (h10 : v ≤ 10) : clamp v 2 10 = v := by
  unfold clamp
  omega

/-- Helper: sanitizing an integer already in `[2, 10]` returns it. -/
theorem sanitizeOrderedBase_intCast (d : Defaults) {m : ℤ} (h2 : 2 ≤ m) (h10 : m ≤ 10) :
    sanitizeOrderedBase d (some (m : ℚ)) = m := by
  rw [sanitizeOrderedBase, parseNumberOr, jsRound_intCast, clamp_eq_self h2 h10]

/-- Helper: the natural-number version on a natural base in `[2, 10]`. -/
theorem sanitizeOrderedBaseNat_natCast (d : Defaults) {b : ℕ} (h2 : 2 ≤ b) (h10 : b ≤ 10) :
    sanitizeOrderedBaseNat d (some (b : ℚ)) = b := by
  rw [sanitizeOrderedBaseNat]
  rw [show ((b : ℚ)) = ((b : ℤ) : ℚ) by push_cast; ring]
  rw [sanitizeOrderedBase_intCast d (by exact_mod_cast h2) (by exact_mod_cast h10)]
  simp

/-- Claim C4: `sanitizeOrderedBase` is idempotent, always returns an integer
in `[2, 10]`, and falls back to the default base when the numeric parse
fails (`NaN`, modelled as `none`). -/
theorem sanitizeOrderedBase_idempotent_range_default (d : Defaults) (x : Option ℚ) :
    sanitizeOrderedBase d (some ((sanitizeOrderedBase d x : ℤ) : ℚ)) = sanitizeOrderedBase d x
    ∧ 2 ≤ sanitizeOrderedBase d x ∧ sanitizeOrderedBase d x ≤ 10
    ∧ sanitizeOrderedBase d none = DEFAULT_ORDERED_BASE d := by
  have hmem : 2 ≤ sanitizeOrderedBase d x ∧ sanitizeOrderedBase d x ≤ 10 := clamp_mem _
  have hdef : 2 ≤ DEFAULT_ORDERED_BASE d ∧ DEFAULT_ORDERED_BASE d ≤ 10 := clamp_mem _
  refine ⟨sanitizeOrderedBase_intCast d hmem.1 hmem.2, hmem.1, hmem.2, ?_⟩
  rw [sanitizeOrderedBase, parseNumberOr]
  rw [show ((DEFAULT_ORDERED_BASE d : ℚ)) = (((DEFAULT_ORDERED_BASE d : ℤ) : ℚ)) by norm_num]
  rw [jsRound_intCast, clamp_eq_self hdef.1 hdef.2]

/-- Helper: `Nat.toDigitsCore` never shrinks its accumulator. -/
theorem toDigitsCore_length_le (b : ℕ) : ∀ (f n : ℕ) (l : List Char),
    l.length ≤ (Nat.toDigitsCore b f n l).length := by
  intro f
  induction f with
  | zero => intro n l; simp [Nat.toDigitsCore]
  | succ f ih =>
    intro n l
    simp only [Nat.toDigitsCore]
    split
    · simp
    · exact le_trans (by simp) (ih (n / b) (Nat.digitChar (n % b) :: l))

/-- Helper: the decimal rendering of a natural number is never empty. -/
theorem natToString_ne_empty (n : ℕ) : toString n ≠ "" := by
  show Nat.repr n ≠ ""
  unfold Nat.repr Nat.toDigits
  intro h
  have hlen : (Nat.toDigitsCore 10 (n + 1) n []).length = 0 := by
    have := congrArg String.length h
    simpa [List.asString] using this
  have h1 : 1 ≤ (Nat.toDigitsCore 10 (n + 1) n []).length := by
    simp only [Nat.toDigitsCore]
    split
    · simp
    · exact le_trans (by simp) (toDigitsCore_length_le 10 n (n / 10) [Nat.digitChar (n % 10)])
  omega

/-- Claim C5: `ensureOrderedDigits` is total and returns a list of length
exactly `base` for every input list, where position `i` holds the trimmed
candidate when non-empty, else the positional default digit (a non-blank
default entry, matching the truthiness test in the source), else the
stringified index. -/
theorem ensureOrderedDigits_total_pointwise (d : Defaults) (values : List String) (base : ℕ) :
    (ensureOrderedDigits d values base).length = base
    ∧ ∀ i, i < base →
      (ensureOrderedDigits d values base).getD i "" =
        (if jsTrim ((values[i]?).getD "") ≠ "" then jsTrim ((values[i]?).getD "")
         else if (d.orderedDigits[i]?).getD "" ≠ "" then (d.orderedDigits[i]?).getD ""
         else toString i) := by
  constructor
  · simp [ensureOrderedDigits]
  · intro i hi
    rw [ensureOrderedDigits, getD_map_range _ hi]

/-- Witness for C5 at a concrete input: base 4, one non-blank row, one blank
row; the blank row at position 1 falls back to the default digit. -/
theorem ensureOrderedDigits_total_pointwise_witness :
    (ensureOrderedDigits dEx [" 7 ", ""] 4).length = 4
    ∧ (ensureOrderedDigits dEx [" 7 ", ""] 4).getD 1 "" = "1" := by
  have h := ensureOrderedDigits_total_pointwise dEx [" 7 ", ""] 4
  exact ⟨h.1, (h.2 1 (by decide)).trans (by decide)⟩

/-- Claim C10: every entry produced by `ensureOrderedDigits` is non-empty:
a blank candidate with a blank or missing positional default falls through
to the stringified index, and a blank default is never emitted. -/
theorem ensureOrderedDigits_entries_nonempty (d : Defaults) (values : List String) (base : ℕ) :
    ∀ s ∈ ensureOrderedDigits d values base, s ≠ "" := by
  intro s hs
  rw [ensureOrderedDigits] at hs
  simp only [List.mem_map, List.mem_range] at hs
  obtain ⟨i, -, rfl⟩ := hs
  split_ifs with h1 h2
  · exact h1
  · exact h2
  · exact natToString_ne_empty i

/-- Witness for C10 at a concrete input: with blank rows, a blank default
table entry and base 2, both emitted digits are non-empty. -/
theorem ensureOrderedDigits_entries_nonempty_witness :
    ("0" : String) ≠ "" :=
  ensureOrderedDigits_entries_nonempty ⟨["", "1"], none⟩ ["", " "] 2 "0" (by decide)

/-- Claim C7: `readBulletSequence` returns the trimmed row values with
blank and whitespace-only entries excluded, and the gathered theme's
`useCustomBullets` is false whenever that sequence is empty, regardless of
the toggle checkbox. -/
theorem readBulletSequence_excludes_blanks_gates_flag (d : Defaults) (c : ControlState) :
    readBulletSequence c.bulletRows
        = (c.bulletRows.map jsTrim).filter (fun value => 0 < value.length)
    ∧ (∀ s ∈ readBulletSequence c.bulletRows, s ≠ "")
    ∧ (readBulletSequence c.bulletRows = [] → (gatherTheme d c).useCustomBullets = false) := by
  refine ⟨rfl, ?_, ?_⟩
  · intro s hs
    rw [readBulletSequence] at hs
    have hp := (List.mem_filter.mp hs).2
    intro hempty
    subst hempty
    exact absurd hp (by decide)
  · intro hempty
    simp [gatherTheme, hempty]

/-- Witness for C7 at a concrete input: whitespace-only rows with the
custom-bullets toggle checked still gather `useCustomBullets = false`. -/
theorem readBulletSequence_excludes_blanks_gates_flag_witness :
    (gatherTheme dEx { ctrlEx with bulletRows := [" ", "  "] }).useCustomBullets = false := by
  have h := readBulletSequence_excludes_blanks_gates_flag dEx
    { ctrlEx with bulletRows := [" ", "  "] }
  exact h.2.2 (by decide)

/-- Claim C6: every gathered theme satisfies
`customOrderedDigits.length = customOrderedBase`, and that base is the
sanitized value of the base control, for all control states. -/
theorem gatherTheme_ordered_invariant (d : Defaults) (c : ControlState) :
    (gatherTheme d c).customOrderedDigits.length = (gatherTheme d c).customOrderedBase
    ∧ (gatherTheme d c).customOrderedBase = sanitizeOrderedBaseNat d c.orderedBaseValue := by
  constructor
  · rfl
  · simp [gatherTheme, ensureOrderedDigits]

/-- Claim C3 fails as stated: with the default digits `["0", "1", "2"]`,
base input 5 and prior values `["0", "1", "2"]`, the rendered rows 3 and 4
hold the empty string as their value, not the stringified indices "3" and
"4" claimed by the spec (those appear only as the rows' placeholders). -/
theorem renderOrderedSequence_missing_default_counterexample :
    ((renderOrderedSequence dEx (some 5) ["0", "1", "2"]).map OrderedRow.value)
      = ["0", "1", "2", "", ""]
    ∧ ((renderOrderedSequence dEx (some 5) ["0", "1", "2"]).map OrderedRow.value)
      ≠ ["0", "1", "2", "3", "4"]
    ∧ ((renderOrderedSequence dEx (some 5) ["0", "1", "2"]).map OrderedRow.placeholder)
      = ["0", "1", "2", "3", "4"] := by
  refine ⟨by decide, by decide, by decide⟩

/-- Claim C3 (amended): re-rendering against a base `b` in `[2, 10]` yields
exactly `b` rows; rows at `i < k` keep the prior value; rows at `i ≥ k`
hold the positional default entry when one exists and the empty string
otherwise, while the stringified index appears as the placeholder exactly
when no default entry exists. -/
theorem renderOrderedSequence_base_change (d : Defaults) (b : ℕ) (values : List String)
    (hb2 : 2 ≤ b) (hb10 : b ≤ 10) :
    (renderOrderedSequence d (some (b : ℚ)) values).length = b
    ∧ (∀ i, i < b → i < values.length →
        ((renderOrderedSequence d (some (b : ℚ)) values).map OrderedRow.value).getD i ""
          = values.getD i "")
    ∧ (∀ i, values.length ≤ i → i < b →
        ((renderOrderedSequence d (some (b : ℚ)) values).map OrderedRow.value).getD i ""
          = d.orderedDigits.getD i "")
    ∧ (∀ i, i < b →
        ((renderOrderedSequence d (some (b : ℚ)) values).map OrderedRow.placeholder).getD i ""
          = if i < d.orderedDigits.length then d.orderedDigits.getD i "" else toString i) := by
  have hbase : sanitizeOrderedBaseNat d (some (b : ℚ)) = b :=
    sanitizeOrderedBaseNat_natCast d hb2 hb10
  simp only [renderOrderedSequence, hbase]
  refine ⟨by simp, ?_, ?_, ?_⟩
  · intro i hib hiv
    rw [List.map_map, getD_map_range _ hib]
    simp only [Function.comp_apply]
    rw [List.getElem?_eq_getElem hiv, Option.getD_some, List.getD_eq_getElem _ _ hiv]
  · intro i hiv hib
    rw [List.map_map, getD_map_range _ hib]
    simp only [Function.comp_apply]
    rw [List.getElem?_eq_none hiv, Option.getD_none]
    exact (List.getD_eq_getElem?_getD _ _ _).symm
  · intro i hib
    rw [List.map_map, getD_map_range _ hib]
    simp only [Function.comp_apply]
    by_cases hd : i < d.orderedDigits.length
    · rw [if_pos hd, List.getElem?_eq_getElem hd, Option.getD_some,
        List.getD_eq_getElem _ _ hd]
    · rw [if_neg hd, List.getElem?_eq_none (le_of_not_lt hd), Option.getD_none]

/-- Witness for the amended C3 at a concrete input: defaults
`["0", "1", "2"]`, base 5, prior values `["0", "1", "2"]`; row 2 keeps the
prior value and row 4's placeholder is the stringified index. -/
theorem renderOrderedSequence_base_change_witness :
    (renderOrderedSequence dEx (some (5 : ℕ)) ["0", "1", "2"]).length = 5
    ∧ ((renderOrderedSequence dEx (some (5 : ℕ)) ["0", "1", "2"]).map
        OrderedRow.value).getD 2 "" = "2"
    ∧ ((renderOrderedSequence dEx (some (5 : ℕ)) ["0", "1", "2"]).map
        OrderedRow.placeholder).getD 4 "" = "4" := by
  have h := renderOrderedSequence_base_change dEx 5 ["0", "1", "2"] (by decide) (by decide)
  refine ⟨h.1, (h.2.1 2 (by decide) (by decide)).trans (by decide), ?_⟩
  exact (h.2.2.2 4 (by decide)).trans (by decide)

/-- Claim C1: when the success response for the latest serial `s2` has been
applied, a later-arriving success response for an earlier serial `s1 < s2`
is discarded entirely — its html and css are not applied, nothing else
changes, and the preview surface keeps showing `s2`'s result. -/
theorem preview_last_request_wins (d : Defaults) (st : PrevState) (s1 s2 : ℕ)
    (h1 c1 h2 c2 : String) (hlt : s1 < s2) (hact : st.activeSerial = s2) :
    (step d st (.respond s2 (.ok h2 c2))).previewHtml = h2
    ∧ (step d st (.respond s2 (.ok h2 c2))).previewCss = c2
    ∧ step d (step d st (.respond s2 (.ok h2 c2))) (.respond s1 (.ok h1 c1))
        = step d st (.respond s2 (.ok h2 c2)) := by
  have hs2 : s2 = st.activeSerial := hact.symm
  have hs1 : ¬ s1 = st.activeSerial := by omega
  simp [step, hs2, hs1]

/-- Witness for C1 at a concrete run: two requests dispatched (serials 1
and 2), serial 2's response applied, then serial 1's arrives late; the
surface still shows serial 2's html. -/
theorem preview_last_request_wins_witness :
    (step dEx (step dEx stEx (.respond 2 (.ok "H2" "C2")))
        (.respond 1 (.ok "H1" "C1"))).previewHtml = "H2" := by
  have h := preview_last_request_wins dEx stEx 1 2 "H1" "C1" "H2" "C2" (by decide) (by decide)
  rw [h.2.2]
  exact h.1

/-- Claim C2 fails as stated: after serial 2's response is applied, the
stale error response for serial 1 still updates the status line (the catch
path of `runPreview` has no serial comparison), so a stale error response
is not free of observable effects. -/
theorem stale_error_updates_status_counterexample :
    stEx2.activeSerial = 2
    ∧ stEx2.previewHtml = "H2"
    ∧ (step dEx stEx2 (.respond 1 (.httpErr 500 (some "boom")))).statusText = "boom"
    ∧ stEx2.statusText ≠ "boom"
    ∧ (step dEx stEx2 (.respond 1 (.httpErr 500 (some "boom")))).statusVariant
        = StatusVariant.error := by
  refine ⟨by decide, by decide, by decide, by decide, by decide⟩

/-- Claim C2 (amended): a response whose captured serial differs from the
live serial never touches the preview surface, the document title, the
serial or the dirty flag; a stale success response is discarded without any
effect at all, but a stale error response still updates the status line to
the error message. -/
theorem stale_response_discarded (d : Defaults) (st : PrevState) (s : ℕ)
    (resp : PreviewResponse) (hs : s ≠ st.activeSerial) :
    (step d st (.respond s resp)).previewHtml = st.previewHtml
    ∧ (step d st (.respond s resp)).previewCss = st.previewCss
    ∧ (step d st (.respond s resp)).docTitle = st.docTitle
    ∧ (step d st (.respond s resp)).activeSerial = st.activeSerial
    ∧ (step d st (.respond s resp)).isPreviewDirty = st.isPreviewDirty
    ∧ (∀ h c, resp = .ok h c → step d st (.respond s resp) = st)
    ∧ (∀ status ef, resp = .httpErr status ef →
        (step d st (.respond s resp)).statusVariant = StatusVariant.error)
    ∧ (∀ m, resp = .netErr m →
        (step d st (.respond s resp)).statusVariant = StatusVariant.error) := by
  cases resp with
  | ok h c => simp [step, hs]
  | httpErr status ef => simp [step]
  | netErr m => simp [step]

/-- Witness for the amended C2 at a concrete run: the stale success
response for serial 1 leaves the applied state untouched. -/
theorem stale_response_discarded_witness :
    step dEx stEx2 (.respond 1 (.ok "H1" "C1")) = stEx2 := by
  have h := stale_response_discarded dEx stEx2 1 (.ok "H1" "C1") (by decide)
  exact h.2.2.2.2.2.1 "H1" "C1" rfl

/-- Claim C8: scheduling replaces the single pending debounce timer, so two
schedule calls at `t1 < t2` with `t2` inside the first call's debounce
window produce exactly one timer fire, at `t2` plus the second call's delay
(0ms when immediate, else 280ms), and the one network call carries the
theme and markdown snapshotted at that firing time, after `t2`. -/
theorem debounce_collapses_burst (d : Defaults) (controls : ℕ → ControlState)
    (t1 t2 : ℕ) (i1 i2 : Bool) (_hlt : t1 < t2) (hwin : t2 < t1 + debounceDelay i1) :
    fireTimes [⟨t1, i1⟩, ⟨t2, i2⟩] none = [t2 + debounceDelay i2]
    ∧ t2 ≤ t2 + debounceDelay i2
    ∧ firedRequests d controls [⟨t1, i1⟩, ⟨t2, i2⟩]
        = [previewRequestAt d controls (t2 + debounceDelay i2)]
    ∧ debounceDelay true = 0 ∧ debounceDelay false = 280 := by
  have hfire : fireTimes [⟨t1, i1⟩, ⟨t2, i2⟩] none = [t2 + debounceDelay i2] := by
    simp only [fireTimes, List.nil_append]
    rw [if_neg (by omega)]
    simp
  refine ⟨hfire, Nat.le_add_right _ _, ?_, rfl, rfl⟩
  rw [firedRequests, hfire]
  simp

/-- Witness for C8 at concrete times: two non-immediate schedule calls at
0ms and 100ms collapse into a single fire at 380ms. -/
theorem debounce_collapses_burst_witness :
    fireTimes [⟨0, false⟩, ⟨100, false⟩] none = [380] := by
  have h := debounce_collapses_burst dEx (fun _ => ctrlEx) 0 100 false false
    (by decide) (by decide)
  exact h.1.trans (by decide)

/-- Claim C9 fails as stated: a non-2xx export response whose JSON body
contains an empty-string `error` field produces the generic status-code
alert, not that error field (the source tests `payload.error` for
truthiness, and the empty string is falsy). -/
theorem export_blank_error_alert_counterexample :
    (downloadPdf true ⟨false, false⟩ (.httpErr 500 (some ""))).2 = ["PDF 생성 실패 (500)"]
    ∧ ("PDF 생성 실패 (500)" : String) ≠ "" := by
  refine ⟨by decide, by decide⟩

/-- Claim C9 (amended): on every exit path of an export attempt the loading
overlay ends absent and the download trigger re-enabled, and a non-2xx
response with a non-empty `error` field in its JSON body alerts exactly that
message. -/
theorem downloadPdf_cleanup_and_alert (templateAvailable : Bool) (ui : UiState)
    (outcome : ExportOutcome) :
    (downloadPdf templateAvailable ui outcome).1.overlayPresent = false
    ∧ (downloadPdf templateAvailable ui outcome).1.btnDownloadDisabled = false
    ∧ (∀ status e, outcome = .httpErr status (some e) → e ≠ "" →
        (downloadPdf templateAvailable ui outcome).2 = [e]) := by
  refine ⟨?_, rfl, ?_⟩
  · simp only [downloadPdf]
    split_ifs with h
    · rfl
    · simpa using h
  · intro status e hout he
    subst hout
    simp [downloadPdf, he]

/-- Witness for the amended C9: an export failing with HTTP 500 and body
error "render failed" alerts exactly "render failed", with the overlay
removed. -/
theorem downloadPdf_cleanup_and_alert_witness :
    (downloadPdf true ⟨false, false⟩ (.httpErr 500 (some "render failed"))).2
      = ["render failed"]
    ∧ (downloadPdf true ⟨false, false⟩
        (.httpErr 500 (some "render failed"))).1.overlayPresent = false := by
  have h := downloadPdf_cleanup_and_alert true ⟨false, false⟩
    (.httpErr 500 (some "render failed"))
  exact ⟨h.2.2 500 "render failed" rfl (by decide), h.1⟩

end Workspace
